import Mathlib

/-!
Verification of the message-ingestion and timer-scheduling control loop of
the `element_ai_bot` repository (`element_bot/matrix_bot_ai.py`).

The Python source is shallowly embedded: each relevant function becomes a
Lean definition over explicit state, times are exact rationals, and the
fallible API call is driven by an oracle of per-attempt outcomes.
-/

namespace ElementBot

/-! ## IntentParser: the regex `^\s*\x7b"time":(\d+)\x7d\s*$` from
`message_callback` (matrix_bot_ai.py line 237), applied with `re.match`. -/

/-- Code points matched by the str-mode Python regex class `\s`
(CPython's Py_UNICODE_ISSPACE table): tab through carriage return, the
four information separators, space, next line, no-break space, ogham
space mark, the U+2000..U+200A spaces, line and paragraph separator,
narrow no-break space, medium mathematical space, ideographic space. -/
def spaceCodes : List ℕ :=
  [9, 10, 11, 12, 13, 28, 29, 30, 31, 32, 133, 160, 5760,
   8192, 8193, 8194, 8195, 8196, 8197, 8198, 8199, 8200, 8201, 8202,
   8232, 8233, 8239, 8287, 12288]

/-- Python regex `\s` on a `str` pattern: Unicode whitespace. -/
def isSpaceChar (c : Char) : Bool :=
  spaceCodes.contains c.toNat

/-- The zero code point of every run of ten consecutive Unicode decimal
digits (category Nd, Unicode 14/15 as shipped with current CPython).
Python's str-mode `\d` matches exactly the code points z..z+9 for z in
this table, and `int()` gives the character z + v the value v. -/
def ndZeros : List ℕ :=
  [48, 1632, 1776, 1984, 2406, 2534, 2662, 2790, 2918, 3046, 3174, 3302,
   3430, 3558, 3664, 3792, 3872, 4160, 4240, 6112, 6160, 6470, 6608, 6784,
   6800, 6992, 7088, 7232, 7248, 42528, 43216, 43264, 43472, 43504, 43600,
   44016, 65296, 66720, 68912, 69734, 69872, 69942, 70096, 70384, 70736,
   70864, 71248, 71360, 71472, 71904, 72016, 72784, 73040, 73120, 92768,
   92864, 93008, 120782, 120792, 120802, 120812, 120822, 123200, 123632,
   125264, 130032]

/-- Python regex `\d` on a `str` pattern: any Unicode decimal digit. -/
def isDigitPy (c : Char) : Bool :=
  ndZeros.any (fun z => z ≤ c.toNat && c.toNat ≤ z + 9)

/-- Decimal value of a Unicode digit character: its offset from the zero
of its run (0 on non-digits, where it is never used). -/
def digitValPy (c : Char) : ℤ :=
  match ndZeros.find? (fun z => z ≤ c.toNat && c.toNat ≤ z + 9) with
  | some z => (c.toNat : ℤ) - z
  | none => 0

/-- Python `int` applied to a non-empty string of decimal digits
(`int(timer_match.group(1))`, line 241): base-10 accumulation of the
per-character decimal values. -/
def digitsToInt (ds : List Char) : ℤ :=
  ds.foldl (fun acc c => acc * 10 + digitValPy c) 0

/-- The literal part of the regex before the digit group. -/
def timeLit : List Char :=
  ['\x7b', '"', 't', 'i', 'm', 'e', '"', ':']

/-- The regex match `re.match(` followed by the raw pattern
backslash-s-star brace time colon digits brace backslash-s-star dollar
`, response)` (line 237), returning the integer value of group 1 when the
whole string (up to leading/trailing whitespace) is the literal timer
object. `re.match` anchors at the start; `\s*$` forces everything after
the closing brace to be whitespace. -/
def timerMatch (s : String) : Option ℤ :=
  let t := s.data.dropWhile isSpaceChar
  if timeLit.isPrefixOf t then
    let r := t.drop timeLit.length
    let ds := r.takeWhile isDigitPy
    let r2 := r.dropWhile isDigitPy
    if ds.isEmpty then none
    else
      match r2 with
      | '\x7d' :: r3 => if (r3.dropWhile isSpaceChar).isEmpty then some (digitsToInt ds) else none
      | _ => none
  else none

/-- Classification of a model reply (spec §4.3): a recognized timer
directive or plain text. The seconds field is ℤ because Python `int` is a
signed integer. -/
inductive Intent where
  | TimerDirective (seconds : ℤ)
  | PlainText (text : String)
deriving DecidableEq, Repr

/-- IntentParser.parse: lines 236-238 classify `response`; a non-match
leaves the response text untouched. -/
def parse (s : String) : Intent :=
  match timerMatch s with
  | some n => .TimerDirective n
  | none => .PlainText s


/-- Function `format_time_duration` (lines 263-265): f-string of the seconds count. -/
def format_time_duration (seconds : ℤ) : String :=
  toString seconds ++ " seconds"

/-! ## Startup configuration check (lines 11-48) and the particle-call
guard (lines 77-81). -/

/-- The environment variables read at module load that the claims are
about. `none` means the variable is absent from the environment. -/
structure Env where
  matrix_password : Option String
  bot_openai_api_key : Option String
  particle_device_id : Option String
  particle_access_token : Option String
deriving Repr

/-- Python truthiness of `os.environ.get(name)`: `None` and the empty
string are both falsy (line 46 tests `if not value`). -/
def truthy : Option String → Bool
  | none => false
  | some s => !s.isEmpty

/-- Function `missing_vars` (line 46): the required names whose value is falsy.
`required_vars` (lines 41-44) lists exactly MATRIX_PASSWORD and
BOT_OPENAI_API_KEY. -/
def missing_vars (e : Env) : List String :=
  (if truthy e.matrix_password then [] else ["MATRIX_PASSWORD"]) ++
  (if truthy e.bot_openai_api_key then [] else ["BOT_OPENAI_API_KEY"])

/-- Lines 47-48: raise `EnvironmentError` iff `missing_vars` is non-empty;
this happens at import time, before any connection is attempted. -/
def startup_check (e : Env) : Except String Unit :=
  if (missing_vars e).isEmpty then .ok ()
  else .error ("Missing required environment variables: " ++ String.intercalate ", " (missing_vars e))

/-- Function `call_particle_function` (lines 77-108). `httpOk` abstracts whether
the HTTP POST returns status 200 without raising. Lines 79-81: a missing
device id or access token logs a warning and returns False — it is not an
error. -/
def call_particle_function (e : Env) (httpOk : Bool) : Bool :=
  if !truthy e.particle_device_id || !truthy e.particle_access_token then false
  else httpOk

/-! ## RateLimiter / CompletionClient: `get_ai_response` (lines 153-208).

Time is an exact rational clock threaded through the computation; each
`await asyncio.sleep(d)` advances it by `d`. The OpenAI call is driven by
an oracle `outcomes : ℕ → Outcome` giving the result of the i-th attempt,
and the two `random.uniform` draws are parameters (`rjitter` for the
rate-limit jitter, `bjitter i` for the backoff jitter of attempt i). -/

/-- Configuration constants (lines 58-59, 69, 179-180). -/
def min_delay_between_calls : ℚ := 3
def jitter : ℚ := 2
def cooldown_period : ℚ := 60
def max_retries : ℕ := 5
def retry_delay : ℚ := 2

/-- The process-wide rate/cooldown state (lines 57, 67-68). -/
structure RateState where
  last_api_call : ℚ
  in_cooldown : Bool
  cooldown_until : ℚ
deriving Repr, DecidableEq

/-- Result of one attempt of `openai_client.chat.completions.create`
(lines 185-191): success with the reply text, a `RateLimitError`, or any
other exception with its message. -/
inductive Outcome where
  | success (text : String)
  | rateLimit
  | failure (msg : String)
deriving Repr, DecidableEq

/-- Outcome of a full `get_ai_response` call: final state, the returned
string, the clock when it returns, and how many API attempts were made. -/
structure AiResult where
  state : RateState
  response : String
  endTime : ℚ
  attempts : ℕ
deriving Repr

/-- The cooldown short-circuit message (line 162). `int()` truncation of
the positive remainder is `Int.floor`. -/
def cooldownMsg (remaining : ℚ) : String :=
  "I\x27m currently in cooldown mode due to rate limiting. Please try again in " ++
    toString ⌊remaining⌋ ++ " seconds."

/-- The cooldown-entry message (line 204). -/
def cooldownEnterMsg : String :=
  "I\x27ve hit the API rate limit. I\x27m entering cooldown mode for 1 minute to avoid further rate limiting. Please try again later."

/-- The non-rate-limit error message (line 208). -/
def apiErrorMsg (m : String) : String :=
  "Sorry, I couldn\x27t process that request due to an API error: " ++ m

/-- Lines 167-173: the rate-limit wait. `required_delay` is
`min_delay_between_calls + uniform(0, jitter)`; the caller sleeps the
deficit when the time since the last call falls short of it. -/
def rate_wait (last now rjitter : ℚ) : ℚ :=
  let required := min_delay_between_calls + rjitter
  if now - last < required then required - (now - last) else 0

/-- The retry loop (lines 182-208). `fuel + attempt = max_retries` on
every call; the fuel-0 branch is unreachable from `get_ai_response`.
On attempt i, success returns the raw text; a non-rate-limit exception
returns the error string without retrying; a `RateLimitError` either
sleeps `retry_delay * 2^i + bjitter i` and retries (line 196), or — at the
last attempt — sets the cooldown state to end `cooldown_period` after the
current time and returns the cooldown-entry message (lines 200-204). -/
def attemptLoop (outcomes : ℕ → Outcome) (bjitter : ℕ → ℚ) :
    ℕ → ℕ → RateState → ℚ → AiResult
  | 0, _, st, clock => ⟨st, "", clock, 0⟩
  | fuel + 1, attempt, st, clock =>
    match outcomes attempt with
    | .success t => ⟨st, t, clock, 1⟩
    | .failure m => ⟨st, apiErrorMsg m, clock, 1⟩
    | .rateLimit =>
      if fuel = 0 then
        ⟨{ st with in_cooldown := true, cooldown_until := clock + cooldown_period },
          cooldownEnterMsg, clock, 1⟩
      else
        let r := attemptLoop outcomes bjitter fuel (attempt + 1) st
          (clock + (retry_delay * 2 ^ attempt + bjitter attempt))
        { r with attempts := r.attempts + 1 }

/-- Function `get_ai_response` (lines 153-208). If the cooldown is active and not
yet expired, return the cooldown message without any attempt (lines
160-162); otherwise clear the cooldown flag (line 164), wait out the rate
limit (lines 167-173), set `last_api_call` to the post-wait time (line
176), and run the retry loop. -/
def get_ai_response (st : RateState) (now rjitter : ℚ)
    (outcomes : ℕ → Outcome) (bjitter : ℕ → ℚ) : AiResult :=
  if st.in_cooldown ∧ now < st.cooldown_until then
    ⟨st, cooldownMsg (st.cooldown_until - now), now, 0⟩
  else
    let st1 : RateState := { st with in_cooldown := false }
    let permitTime := now + rate_wait st1.last_api_call now rjitter
    let st2 : RateState := { st1 with last_api_call := permitTime }
    attemptLoop outcomes bjitter max_retries 0 st2 permitTime

/-! ## SyncGate: `sync_callback` (lines 267-276) and the explicit
fallback in `main` (lines 309-313). -/

/-- The process-wide sync state (lines 63-64), initially `(false, 0)`. -/
structure SyncState where
  initial_sync_done : Bool
  connection_timestamp : ℚ
deriving Repr, DecidableEq

/-- Function `sync_callback` (lines 267-276): acts only when the response is a
`SyncResponse` with a truthy (non-empty) `next_batch` and the initial sync
is not yet marked done; then sets the flag and the cutoff to now. -/
def sync_callback (isSyncResponse : Bool) (next_batch : String) (now : ℚ)
    (s : SyncState) : SyncState :=
  if isSyncResponse && !next_batch.isEmpty && !s.initial_sync_done then
    ⟨true, now⟩
  else s

/-- The explicit post-sync fallback in `main` (lines 309-313): same
transition guarded only by the flag. -/
def main_sync_fallback (now : ℚ) (s : SyncState) : SyncState :=
  if !s.initial_sync_done then ⟨true, now⟩ else s

/-- One invocation of either path of the sync-complete transition. -/
inductive SyncPath where
  | callback (isSyncResponse : Bool) (next_batch : String)
  | fallback
deriving Repr

/-- Dispatch a `SyncPath` invocation at time `now`. -/
def syncStep : SyncPath → ℚ → SyncState → SyncState
  | .callback b nb, now, s => sync_callback b nb now s
  | .fallback, now, s => main_sync_fallback now s

/-! ## TimerRegistry: `active_timers` (line 72), `set_timer`
(lines 135-151) and `timer_handler` (lines 111-133).

The Python dict is modelled as an association list with unique keys;
insertion of key k first deletes any entry with key k. -/

/-- The data of one stored timer: the room it notifies and its duration.
(The opaque asyncio task handle carries exactly this information.) -/
structure TimerEntry where
  room_id : String
  seconds : ℤ
deriving Repr, DecidableEq

/-- The registry of in-flight timers, keyed by timer id. -/
abbrev TimerRegistry := List (String × TimerEntry)

/-- Operation `del active_timers[k]` / the overwrite part of `active_timers[k] = v`. -/
def dictRemove (k : String) (d : TimerRegistry) : TimerRegistry :=
  d.filter (fun p => p.1 ≠ k)

/-- Assignment `active_timers[k] = v` (line 149). -/
def dictInsert (k : String) (v : TimerEntry) (d : TimerRegistry) : TimerRegistry :=
  (k, v) :: dictRemove k d

/-- Test `k in active_timers` (line 117). -/
def dictMem (k : String) (d : TimerRegistry) : Bool :=
  d.any (fun p => p.1 = k)

/-- The timer id generated at line 137:
`f"timer_{int(time.time())}_{random.randint(1000, 9999)}"`. -/
def mkTimerId (now : ℤ) (rand : ℕ) : String :=
  "timer_" ++ toString now ++ "_" ++ toString rand

/-- Function `set_timer` (lines 135-151): generates the id, schedules the deferred
task, stores it in the registry, and returns the id immediately. -/
def set_timer (seconds : ℤ) (room_id : String) (now : ℤ) (rand : ℕ)
    (d : TimerRegistry) : String × TimerRegistry :=
  let timer_id := mkTimerId now rand
  (timer_id, dictInsert timer_id ⟨room_id, seconds⟩ d)

/-- Externally visible steps taken by a firing timer. -/
inductive TimerAction where
  | removeEntry (timer_id : String)
  | callParticle
  | sendRoom (room_id : String) (body : String)
deriving Repr, DecidableEq

/-- Function `timer_handler` (lines 111-133): on firing, first deletes the entry
when present (lines 117-118), then calls the Particle function (line 122),
then — when `room_id` is truthy — sends the fixed "Timer expired!" body to
the room (lines 124-130, failures logged only). Returns the new registry
and the trace of steps taken. -/
def timer_handler (room_id timer_id : String) (d : TimerRegistry) :
    TimerRegistry × List TimerAction :=
  let (d1, removeActs) :=
    if dictMem timer_id d then (dictRemove timer_id d, [TimerAction.removeEntry timer_id])
    else (d, [])
  let sendActs := if room_id ≠ "" then [TimerAction.sendRoom room_id "Timer expired!"] else []
  (d1, removeActs ++ [TimerAction.callParticle] ++ sendActs)

/-! ## MessageRouter: `message_callback` (lines 210-261). -/

/-- An inbound room-message event; `server_timestamp` is in milliseconds
as delivered by the transport (line 219 divides by 1000). -/
structure InboundEvent where
  sender : String
  body : String
  server_timestamp : ℚ
deriving Repr

/-- Externally visible effects of one `message_callback` run. -/
inductive BotAction where
  | apiCall (body : String)
  | scheduleTimer (seconds : ℤ) (room_id : String)
  | sendRoom (room_id : String) (body : String)
deriving Repr, DecidableEq

/-- The confirmation reply built at lines 247-248. -/
def timer_confirmation (n : ℤ) : String :=
  "Timer set for " ++ format_time_duration n ++ ". I\x27ll notify you when it expires."

/-- The degraded reply built at line 253 when timer setup raises. -/
def timer_error_reply (e : String) : String :=
  "I couldn\x27t set the timer. Error: " ++ e

/-- Function `message_callback` (lines 210-261) as a trace of effects. The
rejection checks (lines 214-229) run in source order before the API call;
`aiResponse` is the string `get_ai_response` would return (line 234), and
`scheduleResult` abstracts whether the `set_timer` call at line 244 raises
(`.error e`) or returns an id. The reply sent at lines 256-260 is the
response, replaced on the timer path by the confirmation or the degraded
error text (lines 236-253). -/
def message_callback (initial_sync_done : Bool) (connection_timestamp : ℚ)
    (bot_user_id room_id : String) (ev : InboundEvent)
    (aiResponse : String) (scheduleResult : Except String String) : List BotAction :=
  if initial_sync_done = false then []
  else if ev.sender = bot_user_id then []
  else if ev.server_timestamp / 1000 ≤ connection_timestamp then []
  else
    match parse aiResponse, scheduleResult with
    | .TimerDirective n, .ok _ =>
      [.apiCall ev.body, .scheduleTimer n room_id, .sendRoom room_id (timer_confirmation n)]
    | .TimerDirective _, .error e =>
      [.apiCall ev.body, .sendRoom room_id (timer_error_reply e)]
    | .PlainText t, _ =>
      [.apiCall ev.body, .sendRoom room_id t]

/-- Total time slept by `k` consecutive rate-limited attempts of the retry
loop starting at attempt index `attempt` (the sum of the per-attempt
backoffs of line 196). -/
def backoffTotal (bjitter : ℕ → ℚ) : ℕ → ℕ → ℚ
  | _, 0 => 0
  | attempt, k + 1 =>
    (retry_delay * 2 ^ attempt + bjitter attempt) + backoffTotal bjitter (attempt + 1) k

/-! ## Helper lemmas -/

theorem takeWhile_all_append (p : Char → Bool) (l₁ : List Char) (x : Char) (xs : List Char)
    (h₁ : ∀ a ∈ l₁, p a = true) (hx : p x = false) :
    (l₁ ++ x :: xs).takeWhile p = l₁ := by
  induction l₁ with
  | nil => simp [List.takeWhile_cons, hx]
  | cons c cs ih =>
    have hc : p c = true := h₁ c (List.mem_cons_self c cs)
    simp only [List.cons_append, List.takeWhile_cons, hc, if_true]
    rw [ih (fun a ha => h₁ a (List.mem_cons_of_mem c ha))]

theorem dropWhile_all_append (p : Char → Bool) (l₁ : List Char) (x : Char) (xs : List Char)
    (h₁ : ∀ a ∈ l₁, p a = true) (hx : p x = false) :
    (l₁ ++ x :: xs).dropWhile p = x :: xs := by
  induction l₁ with
  | nil => simp [List.dropWhile_cons, hx]
  | cons c cs ih =>
    have hc : p c = true := h₁ c (List.mem_cons_self c cs)
    simp only [List.cons_append, List.dropWhile_cons, hc, if_true]
    exact ih (fun a ha => h₁ a (List.mem_cons_of_mem c ha))

theorem dropWhile_eq_nil_of_all (p : Char → Bool) (l : List Char)
    (h : ∀ a ∈ l, p a = true) : l.dropWhile p = [] :=
  List.dropWhile_eq_nil_iff.mpr h

theorem digit_val_py_nonneg (c : Char) : 0 ≤ digitValPy c := by
  unfold digitValPy
  cases hf : ndZeros.find? (fun z => z ≤ c.toNat && c.toNat ≤ z + 9) with
  | none => simp
  | some z =>
    have hp := List.find?_some hf
    simp only [Bool.and_eq_true, decide_eq_true_eq] at hp
    have hz : (z : ℤ) ≤ (c.toNat : ℤ) := by exact_mod_cast hp.1
    simp only []
    linarith

theorem digitsToInt_foldl_nonneg (ds : List Char) :
    ∀ acc : ℤ, 0 ≤ acc → 0 ≤ ds.foldl (fun a c => a * 10 + digitValPy c) acc := by
  induction ds with
  | nil => intro acc hacc; simpa using hacc
  | cons c cs ih =>
    intro acc hacc
    have hc : 0 ≤ digitValPy c := digit_val_py_nonneg c
    have hstep : 0 ≤ acc * 10 + digitValPy c := by linarith
    simpa [List.foldl_cons] using ih (acc * 10 + digitValPy c) hstep

theorem digitsToInt_nonneg (ds : List Char) : 0 ≤ digitsToInt ds :=
  digitsToInt_foldl_nonneg ds 0 le_rfl

theorem parse_directive_iff (s : String) (n : ℤ) :
    parse s = .TimerDirective n ↔ timerMatch s = some n := by
  unfold parse
  cases h : timerMatch s <;> simp

/-- Soundness of the regex model: a successful match decomposes the whole
string into leading whitespace, the literal, a non-empty run of digits,
the closing brace, and trailing whitespace, and the value is the digits. -/
theorem timerMatch_some_charact (s : String) (n : ℤ) (h : timerMatch s = some n) :
    ∃ w1 ds w2, s.data = w1 ++ timeLit ++ ds ++ '\x7d' :: w2
      ∧ (∀ c ∈ w1, isSpaceChar c = true)
      ∧ (∀ c ∈ w2, isSpaceChar c = true)
      ∧ ds ≠ []
      ∧ (∀ c ∈ ds, isDigitPy c = true)
      ∧ n = digitsToInt ds := by
  unfold timerMatch at h
  dsimp only at h
  split at h
  case isFalse hpre => simp at h
  case isTrue hpre =>
    split at h
    case isTrue hemp => simp at h
    case isFalse hemp =>
      split at h
      case h_2 hne => simp at h
      case h_1 r3 heq =>
        split at h
        case isFalse hsp => simp at h
        case isTrue hsp =>
          obtain ⟨u, hu⟩ := List.isPrefixOf_iff_prefix.mp hpre
          have hdrop : (s.data.dropWhile isSpaceChar).drop timeLit.length = u := by
            rw [← hu, List.drop_left]
          rw [hdrop] at h heq hemp
          refine ⟨s.data.takeWhile isSpaceChar, u.takeWhile isDigitPy, r3, ?_, ?_, ?_, ?_, ?_, ?_⟩
          · have husplit : u = u.takeWhile isDigitPy ++ u.dropWhile isDigitPy :=
              (List.takeWhile_append_dropWhile isDigitPy u).symm
            rw [heq] at husplit
            calc s.data
                = s.data.takeWhile isSpaceChar ++ s.data.dropWhile isSpaceChar :=
                  (List.takeWhile_append_dropWhile isSpaceChar s.data).symm
              _ = s.data.takeWhile isSpaceChar ++ (timeLit ++ u) := by rw [hu]
              _ = s.data.takeWhile isSpaceChar ++ timeLit ++ u.takeWhile isDigitPy
                    ++ '\x7d' :: r3 := by
                  nth_rewrite 1 [husplit]
                  simp [List.append_assoc]
          · intro c hc
            exact List.mem_takeWhile_imp hc
          · intro c hc
            have h3 : r3.dropWhile isSpaceChar = [] := by
              cases h3 : r3.dropWhile isSpaceChar
              · rfl
              · rw [h3] at hsp
                simp at hsp
            exact List.dropWhile_eq_nil_iff.mp h3 c hc
          · intro hds
            rw [hds] at hemp
            simp at hemp
          · intro c hc
            exact List.mem_takeWhile_imp hc
          · injection h with h2
            exact h2.symm

/-- Completeness of the regex model: every string of the decomposed shape
matches, with the digits as value. -/
theorem timerMatch_of_shape (s : String) (w1 ds w2 : List Char)
    (hs : s.data = w1 ++ timeLit ++ ds ++ '\x7d' :: w2)
    (h1 : ∀ c ∈ w1, isSpaceChar c = true) (h2 : ∀ c ∈ w2, isSpaceChar c = true)
    (hne : ds ≠ []) (hd : ∀ c ∈ ds, isDigitPy c = true) :
    timerMatch s = some (digitsToInt ds) := by
  have hshape : s.data
      = w1 ++ '\x7b' :: (['"', 't', 'i', 'm', 'e', '"', ':'] ++ (ds ++ '\x7d' :: w2)) := by
    rw [hs]
    simp [timeLit]
  have hdropsp : s.data.dropWhile isSpaceChar = timeLit ++ (ds ++ '\x7d' :: w2) := by
    rw [hshape]
    rw [dropWhile_all_append isSpaceChar w1 '\x7b'
      (['"', 't', 'i', 'm', 'e', '"', ':'] ++ (ds ++ '\x7d' :: w2)) h1 (by decide)]
    simp [timeLit]
  have hpre : timeLit.isPrefixOf (timeLit ++ (ds ++ '\x7d' :: w2)) = true :=
    List.isPrefixOf_iff_prefix.mpr ⟨ds ++ '\x7d' :: w2, rfl⟩
  have hdse : ds.isEmpty = false := by
    cases ds
    · exact absurd rfl hne
    · rfl
  unfold timerMatch
  dsimp only
  rw [hdropsp, if_pos hpre, List.drop_left,
    takeWhile_all_append isDigitPy ds '\x7d' w2 hd (by decide),
    dropWhile_all_append isDigitPy ds '\x7d' w2 hd (by decide), hdse]
  simp only [Bool.false_eq_true, if_false]
  rw [dropWhile_eq_nil_of_all isSpaceChar w2 h2]
  simp

theorem dictRemove_cons_self (k : String) (v : TimerEntry) (d : TimerRegistry) :
    dictRemove k ((k, v) :: d) = dictRemove k d := by
  unfold dictRemove
  rw [List.filter_cons]
  simp

theorem dictRemove_of_not_mem (k : String) (d : TimerRegistry)
    (h : dictMem k d = false) : dictRemove k d = d := by
  unfold dictRemove
  apply List.filter_eq_self.mpr
  intro a ha
  simp only [dictMem, List.any_eq_false] at h
  simpa using h a ha

theorem timer_handler_of_mem (room_id timer_id : String) (d : TimerRegistry)
    (h : dictMem timer_id d = true) (hroom : room_id ≠ "") :
    timer_handler room_id timer_id d
      = (dictRemove timer_id d,
         [.removeEntry timer_id, .callParticle, .sendRoom room_id "Timer expired!"]) := by
  unfold timer_handler
  rw [h]
  simp [hroom]

theorem timer_handler_of_not_mem (room_id timer_id : String) (d : TimerRegistry)
    (h : dictMem timer_id d = false) (hroom : room_id ≠ "") :
    timer_handler room_id timer_id d
      = (d, [.callParticle, .sendRoom room_id "Timer expired!"]) := by
  unfold timer_handler
  rw [h]
  simp [hroom]

theorem attemptLoop_last_api_call (outcomes : ℕ → Outcome) (bjitter : ℕ → ℚ) :
    ∀ fuel attempt st clock,
      (attemptLoop outcomes bjitter fuel attempt st clock).state.last_api_call
        = st.last_api_call := by
  intro fuel
  induction fuel with
  | zero =>
    intro attempt st clock
    rfl
  | succ f ih =>
    intro attempt st clock
    unfold attemptLoop
    cases houtcome : outcomes attempt
    case success t => rfl
    case failure m => rfl
    case rateLimit =>
      dsimp only
      by_cases hf : f = 0
      · rw [if_pos hf]
      · rw [if_neg hf]
        exact ih (attempt + 1) st (clock + (retry_delay * 2 ^ attempt + bjitter attempt))

theorem attemptLoop_success (outcomes : ℕ → Outcome) (bjitter : ℕ → ℚ) :
    ∀ k fuel attempt st clock, k < fuel →
      (∀ i, i < k → outcomes (attempt + i) = .rateLimit) →
      ∀ txt, outcomes (attempt + k) = .success txt →
      attemptLoop outcomes bjitter fuel attempt st clock
        = ⟨st, txt, clock + backoffTotal bjitter attempt k, k + 1⟩ := by
  intro k
  induction k with
  | zero =>
    intro fuel attempt st clock hk _ txt hsucc
    obtain ⟨f, rfl⟩ : ∃ f, fuel = f + 1 := ⟨fuel - 1, by omega⟩
    rw [show attempt + 0 = attempt from rfl] at hsucc
    unfold attemptLoop
    rw [hsucc]
    simp [backoffTotal]
  | succ k ih =>
    intro fuel attempt st clock hk hrl txt hsucc
    obtain ⟨f, rfl⟩ : ∃ f, fuel = f + 1 := ⟨fuel - 1, by omega⟩
    have h0 : outcomes attempt = .rateLimit := by
      simpa using hrl 0 (by omega)
    unfold attemptLoop
    rw [h0]
    dsimp only
    have hf : ¬ f = 0 := by omega
    rw [if_neg hf]
    rw [ih f (attempt + 1) st (clock + (retry_delay * 2 ^ attempt + bjitter attempt)) (by omega)
      (fun i hi => by
        have hx := hrl (i + 1) (by omega)
        rw [show attempt + 1 + i = attempt + (i + 1) from by ring]
        exact hx)
      txt (by
        rw [show attempt + 1 + k = attempt + (k + 1) from by ring]
        exact hsucc)]
    simp [backoffTotal]
    ring

theorem attemptLoop_failure (outcomes : ℕ → Outcome) (bjitter : ℕ → ℚ) :
    ∀ k fuel attempt st clock, k < fuel →
      (∀ i, i < k → outcomes (attempt + i) = .rateLimit) →
      ∀ m, outcomes (attempt + k) = .failure m →
      attemptLoop outcomes bjitter fuel attempt st clock
        = ⟨st, apiErrorMsg m, clock + backoffTotal bjitter attempt k, k + 1⟩ := by
  intro k
  induction k with
  | zero =>
    intro fuel attempt st clock hk _ m hfail
    obtain ⟨f, rfl⟩ : ∃ f, fuel = f + 1 := ⟨fuel - 1, by omega⟩
    rw [show attempt + 0 = attempt from rfl] at hfail
    unfold attemptLoop
    rw [hfail]
    simp [backoffTotal]
  | succ k ih =>
    intro fuel attempt st clock hk hrl m hfail
    obtain ⟨f, rfl⟩ : ∃ f, fuel = f + 1 := ⟨fuel - 1, by omega⟩
    have h0 : outcomes attempt = .rateLimit := by
      simpa using hrl 0 (by omega)
    unfold attemptLoop
    rw [h0]
    dsimp only
    have hf : ¬ f = 0 := by omega
    rw [if_neg hf]
    rw [ih f (attempt + 1) st (clock + (retry_delay * 2 ^ attempt + bjitter attempt)) (by omega)
      (fun i hi => by
        have hx := hrl (i + 1) (by omega)
        rw [show attempt + 1 + i = attempt + (i + 1) from by ring]
        exact hx)
      m (by
        rw [show attempt + 1 + k = attempt + (k + 1) from by ring]
        exact hfail)]
    simp [backoffTotal]
    ring

theorem attemptLoop_exhaust (outcomes : ℕ → Outcome) (bjitter : ℕ → ℚ) :
    ∀ fuel attempt st clock, 0 < fuel →
      (∀ i, i < fuel → outcomes (attempt + i) = .rateLimit) →
      attemptLoop outcomes bjitter fuel attempt st clock
        = ⟨⟨st.last_api_call, true,
            clock + backoffTotal bjitter attempt (fuel - 1) + cooldown_period⟩,
           cooldownEnterMsg, clock + backoffTotal bjitter attempt (fuel - 1), fuel⟩ := by
  intro fuel
  induction fuel with
  | zero =>
    intro attempt st clock h
    omega
  | succ f ih =>
    intro attempt st clock _ hrl
    have h0 : outcomes attempt = .rateLimit := by
      simpa using hrl 0 (by omega)
    unfold attemptLoop
    rw [h0]
    dsimp only
    by_cases hf : f = 0
    · subst hf
      rw [if_pos rfl]
      simp [backoffTotal]
    · rw [if_neg hf]
      obtain ⟨g, rfl⟩ : ∃ g, f = g + 1 := ⟨f - 1, by omega⟩
      rw [ih (attempt + 1) st (clock + (retry_delay * 2 ^ attempt + bjitter attempt)) (by omega)
        (fun i hi => by
          have hx := hrl (i + 1) (by omega)
          rw [show attempt + 1 + i = attempt + (i + 1) from by ring]
          exact hx)]
      simp [backoffTotal]
      ring

theorem attemptLoop_attempts_pos (outcomes : ℕ → Outcome) (bjitter : ℕ → ℚ)
    (fuel attempt : ℕ) (st : RateState) (clock : ℚ) (h : 0 < fuel) :
    1 ≤ (attemptLoop outcomes bjitter fuel attempt st clock).attempts := by
  obtain ⟨f, rfl⟩ : ∃ f, fuel = f + 1 := ⟨fuel - 1, by omega⟩
  unfold attemptLoop
  cases houtcome : outcomes attempt <;> dsimp only
  · omega
  · by_cases hf : f = 0
    · rw [if_pos hf]
    · rw [if_neg hf]
      dsimp only
      omega
  · omega

theorem get_ai_response_cooldown_active (st : RateState) (now rjitter : ℚ)
    (outcomes : ℕ → Outcome) (bjitter : ℕ → ℚ)
    (h1 : st.in_cooldown = true) (h2 : now < st.cooldown_until) :
    get_ai_response st now rjitter outcomes bjitter
      = ⟨st, cooldownMsg (st.cooldown_until - now), now, 0⟩ := by
  unfold get_ai_response
  rw [if_pos ⟨h1, h2⟩]

theorem get_ai_response_normal (st : RateState) (now rjitter : ℚ)
    (outcomes : ℕ → Outcome) (bjitter : ℕ → ℚ)
    (h : ¬ (st.in_cooldown = true ∧ now < st.cooldown_until)) :
    get_ai_response st now rjitter outcomes bjitter
      = attemptLoop outcomes bjitter max_retries 0
          ⟨now + rate_wait st.last_api_call now rjitter, false, st.cooldown_until⟩
          (now + rate_wait st.last_api_call now rjitter) := by
  unfold get_ai_response
  rw [if_neg h]

/-! ## Claim C1 -/

/-- C1 counterexample: the claim's own example `parse` of the string with
a space after the colon does not yield TimerDirective 30 — the regex
`(\d+)` starts right after the colon and admits no inner whitespace — so
the string is classified as plain text. -/
theorem parse_inner_space_plaintext :
    parse "  \x7b\"time\": 30\x7d  " ≠ .TimerDirective 30
  ∧ parse "  \x7b\"time\": 30\x7d  " = .PlainText "  \x7b\"time\": 30\x7d  " := by
  constructor
  · decide
  · decide

/-- C1 amended: a reply is a timer directive exactly when the whole
string is optional whitespace (the Unicode class of the Python regex
`\s`), the literal open-brace quote time quote colon, a non-empty run of
Unicode decimal digits (category Nd, the class of `\d` — no whitespace
or sign inside the braces), the closing brace, and optional trailing
whitespace; the whitespace-after-colon variant of the claim's example is
plain text, and everything that is not of that exact shape — prose, or a
directive followed by extra text — is returned unchanged as plain text.
The concrete cases include non-ASCII instances: a no-break-space prefix,
an Arabic-Indic and a fullwidth digit (both value 5), and a trailing
line separator. -/
theorem parse_timer_directive_charact :
    (∀ s n, parse s = .TimerDirective n ↔
      ∃ w1 ds w2, s.data = w1 ++ timeLit ++ ds ++ '\x7d' :: w2
        ∧ (∀ c ∈ w1, isSpaceChar c = true)
        ∧ (∀ c ∈ w2, isSpaceChar c = true)
        ∧ ds ≠ []
        ∧ (∀ c ∈ ds, isDigitPy c = true)
        ∧ n = digitsToInt ds)
  ∧ (∀ s, (∀ n, parse s ≠ .TimerDirective n) → parse s = .PlainText s)
  ∧ parse "\x7b\"time\":900\x7d" = .TimerDirective 900
  ∧ parse "  \x7b\"time\":30\x7d  " = .TimerDirective 30
  ∧ parse "I like pizza" = .PlainText "I like pizza"
  ∧ parse "\x7b\"time\":900\x7d extra text" = .PlainText "\x7b\"time\":900\x7d extra text"
  ∧ parse "\u00a0\x7b\"time\":900\x7d" = .TimerDirective 900
  ∧ parse "\x7b\"time\":\u0665\x7d" = .TimerDirective 5
  ∧ parse "\x7b\"time\":\uff15\x7d" = .TimerDirective 5
  ∧ parse "\x7b\"time\":5\x7d\u2028" = .TimerDirective 5 := by
  refine ⟨?_, ?_, by decide, by decide, by decide, by decide, by decide, by decide, by decide,
    by decide⟩
  · intro s n
    rw [parse_directive_iff]
    constructor
    · exact timerMatch_some_charact s n
    · rintro ⟨w1, ds, w2, hs, h1, h2, hne, hd, hn⟩
      rw [hn]
      exact timerMatch_of_shape s w1 ds w2 hs h1 h2 hne hd
  · intro s h
    unfold parse
    cases hm : timerMatch s with
    | none => rfl
    | some m =>
      have h2 : ¬ timerMatch s = some m := fun hh => h m ((parse_directive_iff s m).mpr hh)
      exact absurd hm h2

/-! ## Claim C2 -/

/-- C2 counterexample: an environment with the transport credential and
the completion-API credential set but both device-credential variables
absent passes the startup check — missing device credentials are not a
startup failure, contradicting the claim that every credential-class value
of the configuration surface is required at startup. -/
theorem startup_ok_without_particle_creds :
    startup_check ⟨some "pw", some "key", none, none⟩ = .ok ()
  ∧ (Env.mk (some "pw") (some "key") none none).particle_device_id = none
  ∧ (Env.mk (some "pw") (some "key") none none).particle_access_token = none :=
  ⟨rfl, rfl, rfl⟩

/-- C2 amended: startup fails fast exactly when the transport credential
(MATRIX_PASSWORD) or the completion-API credential (BOT_OPENAI_API_KEY) is
missing or empty; a missing device credential never aborts startup — it
only makes the device-trigger call a skipped no-op returning false. -/
theorem startup_requires_password_and_key (e : Env) :
    (startup_check e = .ok () ↔
      (truthy e.matrix_password = true ∧ truthy e.bot_openai_api_key = true))
  ∧ (truthy e.particle_device_id = false ∨ truthy e.particle_access_token = false →
      ∀ b, call_particle_function e b = false) := by
  constructor
  · unfold startup_check missing_vars
    cases h1 : truthy e.matrix_password <;> cases h2 : truthy e.bot_openai_api_key <;> simp
  · intro h b
    unfold call_particle_function
    rcases h with h | h <;> simp [h]

/-- C2 witness: the amended theorem evaluated on a concrete environment
with both required credentials present and no device token. -/
theorem startup_requires_password_and_key_w :
    startup_check ⟨some "pw", some "key", some "dev", none⟩ = .ok ()
  ∧ call_particle_function ⟨some "pw", some "key", some "dev", none⟩ true = false := by
  have h := startup_requires_password_and_key ⟨some "pw", some "key", some "dev", none⟩
  exact ⟨h.1.mpr (by constructor <;> rfl), h.2 (Or.inr rfl) true⟩

/-! ## Claim C3 -/

/-- C3: while Live, an event whose sender is the bot itself or whose
timestamp (converted from milliseconds to seconds) is at or before the
connection cutoff produces an empty effect trace: no completion-API call
and no reply, regardless of the oracle response. The empty trace also
shows the rejection happens before any API call. -/
theorem live_rejects_stale_and_self (sync_done : Bool) (cutoff : ℚ) (bot room : String)
    (ev : InboundEvent) (resp : String) (sched : Except String String)
    (h : ev.sender = bot ∨ ev.server_timestamp / 1000 ≤ cutoff) :
    message_callback sync_done cutoff bot room ev resp sched = [] := by
  unfold message_callback
  rcases h with h | h
  · cases sync_done <;> simp [h]
  · cases sync_done
    · simp
    · by_cases hs : ev.sender = bot <;> simp [hs, h]

/-- C3 witness: a concrete stale event (timestamp 5000 ms = 5 s, cutoff
10 s) is dropped with no actions. -/
theorem live_rejects_stale_and_self_w :
    message_callback true 10 "@bot:matrix.org" "!r:matrix.org"
      ⟨"@user:matrix.org", "hello", 5000⟩ "reply" (.ok "t") = [] :=
  live_rejects_stale_and_self true 10 "@bot:matrix.org" "!r:matrix.org"
    ⟨"@user:matrix.org", "hello", 5000⟩ "reply" (.ok "t") (Or.inr (by norm_num))

/-! ## Claim C6 -/

/-- C6: from a not-yet-synced state, either invocation path (the sync
callback with a valid SyncResponse, or the explicit fallback in main) sets
initialSyncDone and the cutoff exactly once; any later invocation of
either path leaves the state unchanged, so the state never reverts, the
cutoff is set only once, and it is non-zero for a positive clock. -/
theorem sync_gate_first_caller_wins (s : SyncState) (nb : String) (t1 : ℚ)
    (hnd : s.initial_sync_done = false) (hnb : nb ≠ "") (ht : 0 < t1) :
    main_sync_fallback t1 s = ⟨true, t1⟩
  ∧ sync_callback true nb t1 s = ⟨true, t1⟩
  ∧ (∀ p t2, syncStep p t2 ⟨true, t1⟩ = ⟨true, t1⟩)
  ∧ (SyncState.mk true t1).connection_timestamp ≠ 0 := by
  refine ⟨?_, ?_, ?_, ?_⟩
  · unfold main_sync_fallback
    simp [hnd]
  · unfold sync_callback
    have : nb.isEmpty = false := by
      cases h : nb.isEmpty
      · rfl
      · exact absurd ((String.isEmpty_iff nb).mp h) hnb
    simp [hnd, this]
  · intro p t2
    cases p <;> simp [syncStep, sync_callback, main_sync_fallback]
  · simpa using ht.ne'

/-- C6 witness: the double-invocation race at concrete times — the first
call at t = 7 wins and the second at t = 9 is a no-op. -/
theorem sync_gate_first_caller_wins_w :
    main_sync_fallback 7 ⟨false, 0⟩ = ⟨true, 7⟩
  ∧ syncStep (.callback true "batch") 9 ⟨true, 7⟩ = ⟨true, 7⟩ := by
  have h := sync_gate_first_caller_wins ⟨false, 0⟩ "batch" 7 rfl (by simp) (by norm_num)
  exact ⟨h.1, h.2.2.1 (.callback true "batch") 9⟩

/-! ## Claim C7 -/

/-- C7: scheduling a timer with a fresh id stores exactly that entry; its
firing removes the entry first, then calls the device trigger, then sends
the fixed "Timer expired!" body to the timer's room, restoring the
registry to its pre-schedule contents (zero entries for that timer); and a
second firing attempt on the post-fire registry performs no removal — the
remove-first discipline makes a double fire impossible. -/
theorem timer_fire_exactly_once (d : TimerRegistry) (seconds : ℤ) (room_id : String)
    (now : ℤ) (rand : ℕ)
    (hroom : room_id ≠ "")
    (hfresh : dictMem (mkTimerId now rand) d = false) :
    (set_timer seconds room_id now rand d).1 = mkTimerId now rand
  ∧ dictMem (mkTimerId now rand) (set_timer seconds room_id now rand d).2 = true
  ∧ timer_handler room_id (mkTimerId now rand) (set_timer seconds room_id now rand d).2
      = (d, [.removeEntry (mkTimerId now rand), .callParticle,
             .sendRoom room_id "Timer expired!"])
  ∧ timer_handler room_id (mkTimerId now rand) d
      = (d, [.callParticle, .sendRoom room_id "Timer expired!"]) := by
  have hremove : dictRemove (mkTimerId now rand) d = d :=
    dictRemove_of_not_mem (mkTimerId now rand) d hfresh
  have hmem : dictMem (mkTimerId now rand) (set_timer seconds room_id now rand d).2 = true := by
    unfold set_timer dictInsert dictMem
    simp
  refine ⟨rfl, hmem, ?_, ?_⟩
  · rw [timer_handler_of_mem room_id (mkTimerId now rand)
      (set_timer seconds room_id now rand d).2 hmem hroom]
    unfold set_timer dictInsert
    rw [dictRemove_cons_self, hremove, hremove]
  · rw [timer_handler_of_not_mem room_id (mkTimerId now rand) d hfresh hroom]

/-- C7 witness: the scenario of spec §8 — schedule a 1-second timer for
"room1" on an empty registry; firing notifies "room1" once and leaves the
registry empty. -/
theorem timer_fire_exactly_once_w :
    timer_handler "room1" (mkTimerId 100 1234) (set_timer 1 "room1" 100 1234 []).2
      = ([], [.removeEntry (mkTimerId 100 1234), .callParticle,
              .sendRoom "room1" "Timer expired!"]) :=
  (timer_fire_exactly_once [] 1 "room1" 100 1234 (by simp) rfl).2.2.1

/-! ## Claim C8 -/

/-- C8: while Live and for a non-rejected event, a reply parsing as a
timer directive for n seconds schedules a timer for n seconds in the
event's room and sends a confirmation preserving the literal seconds
count; when scheduling raises, the reply degrades to the error text and
the trace still ends with a normal send (no crash). -/
theorem timer_directive_confirmation (cutoff : ℚ) (bot room : String) (ev : InboundEvent)
    (resp : String) (n : ℤ) (tid err : String)
    (hs : ev.sender ≠ bot) (ht : ¬ ev.server_timestamp / 1000 ≤ cutoff)
    (hp : parse resp = .TimerDirective n) :
    message_callback true cutoff bot room ev resp (.ok tid)
      = [.apiCall ev.body, .scheduleTimer n room, .sendRoom room (timer_confirmation n)]
  ∧ message_callback true cutoff bot room ev resp (.error err)
      = [.apiCall ev.body, .sendRoom room (timer_error_reply err)]
  ∧ timer_confirmation n
      = "Timer set for " ++ toString n ++ " seconds. I\x27ll notify you when it expires." := by
  refine ⟨?_, ?_, ?_⟩
  · unfold message_callback
    simp [hs, ht, hp]
  · unfold message_callback
    simp [hs, ht, hp]
  · unfold timer_confirmation format_time_duration
    simp [String.append_assoc]

/-- C8 witness: the concrete scenario of spec §8 — the completion reply
is the 900-second directive, and the router replies with the literal
"Timer set for 900 seconds." confirmation. -/
theorem timer_directive_confirmation_w :
    message_callback true 10 "@bot:matrix.org" "!r:matrix.org"
      ⟨"@user:matrix.org", "set timer for 15 minutes", 20000⟩
      "\x7b\"time\":900\x7d" (.ok "t1")
      = [.apiCall "set timer for 15 minutes", .scheduleTimer 900 "!r:matrix.org",
         .sendRoom "!r:matrix.org"
           "Timer set for 900 seconds. I\x27ll notify you when it expires."] := by
  have h := timer_directive_confirmation 10 "@bot:matrix.org" "!r:matrix.org"
    ⟨"@user:matrix.org", "set timer for 15 minutes", 20000⟩
    "\x7b\"time\":900\x7d" 900 "t1" "boom"
    (by simp) (by norm_num) (by decide)
  rw [h.1, h.2.2]
  rfl

/-! ## Claim C10 -/

/-- C10: the seconds value of every recognized timer directive is
non-negative — the digit group admits no sign — and a negative-looking
reply such as the -5 directive is classified as plain text, so the
scheduler is never handed negative seconds. -/
theorem directive_seconds_nonneg :
    (∀ s n, parse s = .TimerDirective n → 0 ≤ n)
  ∧ parse "\x7b\"time\":-5\x7d" = .PlainText "\x7b\"time\":-5\x7d" := by
  constructor
  · intro s n h
    have hm : timerMatch s = some n := (parse_directive_iff s n).mp h
    obtain ⟨w1, ds, w2, _, _, _, _, _, hn⟩ := timerMatch_some_charact s n hm
    rw [hn]
    exact digitsToInt_nonneg ds
  · decide

/-- C10 witness: the non-negativity fact applied to the concrete
900-second directive. -/
theorem directive_seconds_nonneg_w : (0 : ℤ) ≤ 900 :=
  directive_seconds_nonneg.1 "\x7b\"time\":900\x7d" 900 (by decide)

/-! ## Claim C5 -/

/-- C5: with lastCallAt = T and a call entering at T + 0.5 s with the
jitter draw in [0, 2], the computed wait is exactly 2.5 + jitter seconds,
hence at least 2.5 and at most 4.5; and the final state's lastCallAt
equals the entry time plus the wait — i.e. it is set to the post-delay
clock, never before the delay completes. -/
theorem acquire_delay_bounds (st : RateState) (T rjitter : ℚ)
    (outcomes : ℕ → Outcome) (bjitter : ℕ → ℚ)
    (hnc : ¬ (st.in_cooldown = true ∧ T + 1/2 < st.cooldown_until))
    (hlast : st.last_api_call = T)
    (hj0 : 0 ≤ rjitter) (hj2 : rjitter ≤ jitter) :
    rate_wait st.last_api_call (T + 1/2) rjitter = 5/2 + rjitter
  ∧ 5/2 ≤ rate_wait st.last_api_call (T + 1/2) rjitter
  ∧ rate_wait st.last_api_call (T + 1/2) rjitter ≤ 9/2
  ∧ (get_ai_response st (T + 1/2) rjitter outcomes bjitter).state.last_api_call
      = (T + 1/2) + rate_wait st.last_api_call (T + 1/2) rjitter := by
  have hw : rate_wait st.last_api_call (T + 1/2) rjitter = 5/2 + rjitter := by
    unfold rate_wait
    dsimp only
    rw [hlast, if_pos (by unfold min_delay_between_calls; linarith)]
    unfold min_delay_between_calls
    ring
  refine ⟨hw, ?_, ?_, ?_⟩
  · rw [hw]
    linarith
  · rw [hw]
    unfold jitter at hj2
    linarith
  · rw [get_ai_response_normal st (T + 1/2) rjitter outcomes bjitter hnc,
      attemptLoop_last_api_call]

/-- C5 witness: concrete instance with T = 100 and jitter draw 1 — the
wait is exactly 3.5 seconds, within [2.5, 4.5]. -/
theorem acquire_delay_bounds_w :
    rate_wait (100 : ℚ) (100 + 1/2) 1 = 5/2 + 1
  ∧ (5 : ℚ)/2 ≤ rate_wait (100 : ℚ) (100 + 1/2) 1 := by
  have h := acquire_delay_bounds ⟨100, false, 0⟩ 100 1 (fun _ => .success "ok") (fun _ => 0)
    (by simp) rfl (by norm_num) (by unfold jitter; norm_num)
  exact ⟨h.1, h.2.1⟩

/-! ## Claim C4 -/

/-- C4: when every one of the five attempts hits the rate limit, the call
ends with cooldownActive true and cooldownUntil exactly 60 s past the
moment it returns, returning the cooldown-entry message after five
attempts; every later call while now < cooldownUntil returns the cooldown
message with zero attempts (no request); and once now ≥ cooldownUntil the
next call attempts a request again (the flag is cleared on entry — with a
successful first attempt the reply is the raw text and the final state
has the flag off). -/
theorem rate_limit_cooldown_lifecycle (st : RateState) (now rjitter : ℚ)
    (outcomes : ℕ → Outcome) (bjitter : ℕ → ℚ) (r : AiResult)
    (hr : r = get_ai_response st now rjitter outcomes bjitter)
    (hnc : ¬ (st.in_cooldown = true ∧ now < st.cooldown_until))
    (hrl : ∀ i, i < max_retries → outcomes i = .rateLimit) :
    r.state.in_cooldown = true
  ∧ r.state.cooldown_until = r.endTime + cooldown_period
  ∧ r.response = cooldownEnterMsg
  ∧ r.attempts = max_retries
  ∧ (∀ now2 rj2 oc2 bj2, now2 < r.state.cooldown_until →
      get_ai_response r.state now2 rj2 oc2 bj2
        = ⟨r.state, cooldownMsg (r.state.cooldown_until - now2), now2, 0⟩)
  ∧ (∀ now3 rj3 oc3 bj3, r.state.cooldown_until ≤ now3 →
      1 ≤ (get_ai_response r.state now3 rj3 oc3 bj3).attempts
    ∧ ∀ t, oc3 0 = .success t →
        (get_ai_response r.state now3 rj3 oc3 bj3).response = t
      ∧ (get_ai_response r.state now3 rj3 oc3 bj3).state.in_cooldown = false) := by
  have hre : r = ⟨⟨now + rate_wait st.last_api_call now rjitter, true,
      (now + rate_wait st.last_api_call now rjitter)
        + backoffTotal bjitter 0 (max_retries - 1) + cooldown_period⟩,
      cooldownEnterMsg,
      (now + rate_wait st.last_api_call now rjitter)
        + backoffTotal bjitter 0 (max_retries - 1),
      max_retries⟩ := by
    rw [hr, get_ai_response_normal st now rjitter outcomes bjitter hnc,
      attemptLoop_exhaust outcomes bjitter max_retries 0 _ _ (by decide)
        (fun i hi => by simpa using hrl i hi)]
  refine ⟨by rw [hre], by rw [hre], by rw [hre], by rw [hre], ?_, ?_⟩
  · intro now2 rj2 oc2 bj2 hlt
    exact get_ai_response_cooldown_active r.state now2 rj2 oc2 bj2 (by rw [hre]) hlt
  · intro now3 rj3 oc3 bj3 hge
    have hnc3 : ¬ (r.state.in_cooldown = true ∧ now3 < r.state.cooldown_until) :=
      fun hx => absurd hx.2 (not_lt.mpr hge)
    refine ⟨?_, ?_⟩
    · rw [get_ai_response_normal r.state now3 rj3 oc3 bj3 hnc3]
      exact attemptLoop_attempts_pos oc3 bj3 max_retries 0 _ _ (by decide)
    · intro t ht
      rw [get_ai_response_normal r.state now3 rj3 oc3 bj3 hnc3,
        attemptLoop_success oc3 bj3 0 max_retries 0 _ _ (by decide)
          (fun i hi => absurd hi (by omega)) t (by simpa using ht)]
      exact ⟨rfl, rfl⟩

/-- C4 witness: with every attempt rate-limited from a clean state, the
call returns the cooldown-entry message after exactly five attempts. -/
theorem rate_limit_cooldown_lifecycle_w :
    (get_ai_response ⟨0, false, 0⟩ 100 0 (fun _ => .rateLimit) (fun _ => 0)).response
      = cooldownEnterMsg
  ∧ (get_ai_response ⟨0, false, 0⟩ 100 0 (fun _ => .rateLimit) (fun _ => 0)).attempts
      = max_retries := by
  have h := rate_limit_cooldown_lifecycle ⟨0, false, 0⟩ 100 0 (fun _ => .rateLimit)
    (fun _ => 0) (get_ai_response ⟨0, false, 0⟩ 100 0 (fun _ => .rateLimit) (fun _ => 0))
    rfl (by simp) (fun i hi => rfl)
  exact ⟨h.2.2.1, h.2.2.2.1⟩

/-! ## Claim C9 -/

/-- C9: `get_ai_response` always returns a string, characterized over all
paths: with an active unexpired cooldown it returns the cooldown message
with zero attempts; otherwise, if attempt k succeeds after k rate-limited
attempts the raw text is returned unmodified; if attempt k fails with a
non-rate-limit error the error message embedding the description is
returned after exactly k + 1 attempts (no retry of the failure); and if
all five attempts are rate-limited the cooldown-entry message is
returned. -/
theorem get_ai_response_total_charact (st : RateState) (now rjitter : ℚ)
    (outcomes : ℕ → Outcome) (bjitter : ℕ → ℚ) (k : ℕ) (txt m : String)
    (hk : k < max_retries) (hpre : ∀ i, i < k → outcomes i = .rateLimit) :
    (st.in_cooldown = true → now < st.cooldown_until →
      get_ai_response st now rjitter outcomes bjitter
        = ⟨st, cooldownMsg (st.cooldown_until - now), now, 0⟩)
  ∧ (¬ (st.in_cooldown = true ∧ now < st.cooldown_until) →
      (outcomes k = .success txt →
        (get_ai_response st now rjitter outcomes bjitter).response = txt
      ∧ (get_ai_response st now rjitter outcomes bjitter).attempts = k + 1)
    ∧ (outcomes k = .failure m →
        (get_ai_response st now rjitter outcomes bjitter).response = apiErrorMsg m
      ∧ (get_ai_response st now rjitter outcomes bjitter).attempts = k + 1)
    ∧ ((∀ i, i < max_retries → outcomes i = .rateLimit) →
        (get_ai_response st now rjitter outcomes bjitter).response = cooldownEnterMsg)) := by
  refine ⟨?_, ?_⟩
  · intro h1 h2
    exact get_ai_response_cooldown_active st now rjitter outcomes bjitter h1 h2
  · intro hnc
    refine ⟨?_, ?_, ?_⟩
    · intro hs
      rw [get_ai_response_normal st now rjitter outcomes bjitter hnc,
        attemptLoop_success outcomes bjitter k max_retries 0 _ _ hk
          (fun i hi => by simpa using hpre i hi) txt (by simpa using hs)]
      exact ⟨rfl, rfl⟩
    · intro hf
      rw [get_ai_response_normal st now rjitter outcomes bjitter hnc,
        attemptLoop_failure outcomes bjitter k max_retries 0 _ _ hk
          (fun i hi => by simpa using hpre i hi) m (by simpa using hf)]
      exact ⟨rfl, rfl⟩
    · intro hrl
      rw [get_ai_response_normal st now rjitter outcomes bjitter hnc,
        attemptLoop_exhaust outcomes bjitter max_retries 0 _ _ (by decide)
          (fun i hi => by simpa using hrl i hi)]

/-- C9 witness: a clean state with an immediately successful attempt
returns the raw response text. -/
theorem get_ai_response_total_charact_w :
    (get_ai_response ⟨0, false, 0⟩ 100 0 (fun _ => .success "hello") (fun _ => 0)).response
      = "hello" := by
  have h := get_ai_response_total_charact ⟨0, false, 0⟩ 100 0 (fun _ => .success "hello")
    (fun _ => 0) 0 "hello" "m" (by decide) (fun i hi => absurd hi (by omega))
  exact ((h.2 (by simp)).1 rfl).1

end ElementBot
